import Mathlib

/-!
Verification of the whoosh-novo search-engine core against its specification.

Byte strings and unicode strings are embedded as `List Nat` (byte values,
respectively code points).  Functions present in the repository sources
(`whoosh/util/text.py`, `whoosh/analysis/ngrams.py`,
`whoosh/analysis/tokenizers.py`) are translated directly; the index/writer/
reader engine, whose sources are not in the tree (only its tests are), is
modelled from the specification, as marked on each such definition.
-/

set_option maxRecDepth 4096

namespace Whoosh

/-! ## Prefix-encoding codec (whoosh/util/text.py) -/

/-- Loop of `first_diff` from whoosh/util/text.py: Python
`while i <= 255 and i < len(a) and i < len(b) and a[i] == b[i]: i += 1`,
with the lists holding the elements from index `i` on. -/
def firstDiffAux : List Nat → List Nat → Nat → Nat
  | x :: a, y :: b, i => if i ≤ 255 ∧ x = y then firstDiffAux a b (i + 1) else i
  | _, _, i => i

/-- `first_diff(a, b)` from whoosh/util/text.py: position of the first
differing element, starting the scan at index 0. -/
def first_diff (a b : List Nat) : Nat := firstDiffAux a b 0

/-- `byte(num)` from whoosh/util/text.py: `bytes((num,))`, which in Python
raises `ValueError` unless `0 <= num <= 255`; the failure is `none`. -/
def byte (num : Nat) : Option (List Nat) :=
  if num ≤ 255 then some [num] else none

/-- `prefix_encode(a, b)` from whoosh/util/text.py:
`byte(first_diff(a, b)) + b[i:]`; `none` when `byte` fails. -/
def prefix_encode (a b : List Nat) : Option (List Nat) :=
  match byte (first_diff a b) with
  | some p => some (p ++ b.drop (first_diff a b))
  | none => none

/-- Body of the generator `prefix_encode_all(ls)` from whoosh/util/text.py,
with `last` the accumulator variable: each string is stored as
`chr(i) + w[i:]` where `i = first_diff(last, w)`. -/
def prefixEncodeAllGo : List Nat → List (List Nat) → List (List Nat)
  | _, [] => []
  | last, w :: ws =>
      (first_diff last w :: w.drop (first_diff last w)) :: prefixEncodeAllGo w ws

/-- `prefix_encode_all(ls)` from whoosh/util/text.py (`last` starts as `""`). -/
def prefix_encode_all (ls : List (List Nat)) : List (List Nat) :=
  prefixEncodeAllGo [] ls

/-- One step of `prefix_decode_all` from whoosh/util/text.py:
`i = ord(w[0]); decoded = last[:i] + w[1:]`.  `w[0]` on an empty string
raises `IndexError`, hence `none` for an empty record. -/
def prefixDecodeStep : List Nat → List Nat → Option (List Nat)
  | _, [] => none
  | last, i :: rest => some (last.take i ++ rest)

/-- Body of the generator `prefix_decode_all(ls)` from whoosh/util/text.py,
threading the previously decoded entry through `last`. -/
def prefixDecodeAllGo : List Nat → List (List Nat) → Option (List (List Nat))
  | _, [] => some []
  | last, w :: ws =>
      match prefixDecodeStep last w with
      | none => none
      | some decoded => (prefixDecodeAllGo decoded ws).map (fun t => decoded :: t)

/-- `prefix_decode_all(ls)` from whoosh/util/text.py (`last` starts as `""`). -/
def prefix_decode_all (ls : List (List Nat)) : Option (List (List Nat)) :=
  prefixDecodeAllGo [] ls

/-- The scan counter only grows. -/
lemma firstDiffAux_le (a : List Nat) : ∀ (b : List Nat) (i : Nat),
    i ≤ firstDiffAux a b i := by
  induction a with
  | nil => intro b i; cases b <;> simp [firstDiffAux]
  | cons x a ih =>
      intro b i
      cases b with
      | nil => simp [firstDiffAux]
      | cons y b =>
          by_cases h : i ≤ 255 ∧ x = y
          · simp only [firstDiffAux, if_pos h]
            exact Nat.le_trans (Nat.le_succ i) (ih b (i + 1))
          · simp [firstDiffAux, if_neg h]

/-- The elements scanned past by `first_diff` agree: taking
`firstDiffAux a b i - i` elements of `a` and of `b` gives the same list. -/
lemma firstDiffAux_take (a : List Nat) : ∀ (b : List Nat) (i : Nat),
    a.take (firstDiffAux a b i - i) = b.take (firstDiffAux a b i - i) := by
  induction a with
  | nil => intro b i; cases b <;> simp [firstDiffAux]
  | cons x a ih =>
      intro b i
      cases b with
      | nil => simp [firstDiffAux]
      | cons y b =>
          by_cases h : i ≤ 255 ∧ x = y
          · have hle : i + 1 ≤ firstDiffAux a b (i + 1) := firstDiffAux_le a b (i + 1)
            have hstep : firstDiffAux (x :: a) (y :: b) i = firstDiffAux a b (i + 1) := by
              simp [firstDiffAux, if_pos h]
            rw [hstep]
            have hsub : firstDiffAux a b (i + 1) - i = (firstDiffAux a b (i + 1) - (i + 1)) + 1 := by
              omega
            rw [hsub]
            simp only [List.take_succ_cons]
            rw [h.2, ih b (i + 1)]
          · simp [firstDiffAux, if_neg h]

/-- The shared-prefix property of `first_diff`. -/
lemma first_diff_take (a b : List Nat) :
    a.take (first_diff a b) = b.take (first_diff a b) := by
  have h := firstDiffAux_take a b 0
  simpa [first_diff] using h

/-- The codec round-trips from any synchronized `last` value. -/
lemma prefixDecodeAllGo_encode (ws : List (List Nat)) : ∀ (last : List Nat),
    prefixDecodeAllGo last (prefixEncodeAllGo last ws) = some ws := by
  induction ws with
  | nil => intro last; simp [prefixEncodeAllGo, prefixDecodeAllGo]
  | cons w ws ih =>
      intro last
      have hdec : last.take (first_diff last w) ++ w.drop (first_diff last w) = w := by
        rw [first_diff_take last w]
        exact List.take_append_drop _ w
      simp [prefixEncodeAllGo, prefixDecodeAllGo, prefixDecodeStep, hdec, ih w]

/-- Claim C1: the spec and the docstring of `first_diff` promise a
shared-prefix length of at most 255, so that `prefix_encode` always succeeds;
but the loop guard `i <= 255` lets `i` reach 256 once 256 leading elements
agree, and then `byte(256)` fails.  Evaluated here at two equal byte strings
of 256 copies of 97. -/
theorem first_diff_reaches_256 :
    first_diff (List.replicate 256 97) (List.replicate 256 97) = 256 ∧
    prefix_encode (List.replicate 256 97) (List.replicate 256 97) = none := by
  constructor <;> rfl

/-- Claim C2: decoding the output of `prefix_encode_all` with
`prefix_decode_all` yields exactly the original list of strings; each step of
the decoder (`prefixDecodeStep`) consumes only the previous decoded entry and
the current encoded record. -/
theorem prefix_codec_roundtrip (ls : List (List Nat)) :
    prefix_decode_all (prefix_encode_all ls) = some ls := by
  simpa [prefix_decode_all, prefix_encode_all] using prefixDecodeAllGo_encode ls []

/-! ## Tokenizers (whoosh/analysis/ngrams.py, whoosh/analysis/tokenizers.py) -/

/-- Snapshot of the mutable `Token` at the moment it is yielded: the fields the
tokenizer claims concern.  `startchar`/`endchar` are `none` when `chars` is
false (the attributes are then never set), likewise `pos` for `positions`. -/
structure Tok where
  text : List Nat
  boost : Rat
  pos : Option Nat
  startchar : Option Nat
  endchar : Option Nat
deriving DecidableEq

/-- `NgramTokenizer.__call__` in non-query mode, from whoosh/analysis/ngrams.py:
`for start in range(0, inlen - self.min + 1): for size in range(self.min,
self.max + 1): end = start + size; if end > inlen: continue;
t.text = value[start:end]; ...; yield t`.  The boost attribute of a fresh
`Token` defaults to 1.0; `pos` tracks the Python variable incremented once per
outer iteration. -/
def ngramCall (minsize maxsize : Nat) (value : List Nat)
    (positions chars : Bool) (start_pos start_char : Nat) : List Tok :=
  (List.range (value.length + 1 - minsize)).flatMap (fun start =>
    (List.range (maxsize + 1 - minsize)).filterMap (fun k =>
      let size := minsize + k
      let e := start + size
      if e > value.length then none
      else some { text := (value.drop start).take size
                  boost := 1
                  pos := if positions then some (start_pos + start) else none
                  startchar := if chars then some (start_char + start) else none
                  endchar := if chars then some (start_char + e) else none }))

/-- `IDTokenizer.__call__` from whoosh/analysis/tokenizers.py: yields one token
whose text is the whole input, boost 1.0, `pos = start_pos + 1` when positions
are requested, and `(start_char, start_char + len(value))` character offsets
when `chars` is requested. -/
def idCall (value : List Nat) (positions chars : Bool)
    (start_pos start_char : Nat) : List Tok :=
  [{ text := value
     boost := 1
     pos := if positions then some (start_pos + 1) else none
     startchar := if chars then some start_char else none
     endchar := if chars then some (start_char + value.length) else none }]

/-- Claim C9: every token produced by the n-gram tokenizer in non-query mode
with `chars = true` is a contiguous slice `value[start : start + size]` with
`minsize ≤ size ≤ maxsize`, and its character offsets are
`(start_char + start, start_char + start + size)`. -/
theorem ngram_token_is_substring (minsize maxsize : Nat) (value : List Nat)
    (positions : Bool) (start_pos start_char : Nat) (t : Tok)
    (hsz : minsize ≤ maxsize)
    (ht : t ∈ ngramCall minsize maxsize value positions true start_pos start_char) :
    ∃ start size, minsize ≤ size ∧ size ≤ maxsize ∧ start + size ≤ value.length ∧
      t.text = (value.drop start).take size ∧
      t.startchar = some (start_char + start) ∧
      t.endchar = some (start_char + (start + size)) := by
  simp only [ngramCall, List.mem_flatMap, List.mem_filterMap, List.mem_range] at ht
  obtain ⟨start, hstart, k, hk, hval⟩ := ht
  by_cases hend : start + (minsize + k) > value.length
  · simp [hend] at hval
  · simp only [if_neg hend] at hval
    refine ⟨start, minsize + k, Nat.le_add_right _ _, by omega, by omega, ?_⟩
    injection hval with h
    subst h
    exact ⟨rfl, by simp, by simp⟩

/-- Witness for C9 at `minsize = 1`, `maxsize = 2`, input `[10, 11, 12]`. -/
theorem ngram_token_is_substring_witness :
    ∃ start size, 1 ≤ size ∧ size ≤ 2 ∧ start + size ≤ 3 ∧
      (({ text := [10, 11], boost := 1, pos := none,
          startchar := some 0, endchar := some 2 } : Tok)).text
        = (([10, 11, 12] : List Nat).drop start).take size ∧
      (({ text := [10, 11], boost := 1, pos := none,
          startchar := some 0, endchar := some 2 } : Tok)).startchar
        = some (0 + start) ∧
      (({ text := [10, 11], boost := 1, pos := none,
          startchar := some 0, endchar := some 2 } : Tok)).endchar
        = some (0 + (start + size)) := by
  have h := ngram_token_is_substring 1 2 [10, 11, 12] false 0 0
    { text := [10, 11], boost := 1, pos := none,
      startchar := some 0, endchar := some 2 }
    (by decide) (by decide)
  simpa using h

/-- Claim C10: `IDTokenizer` yields exactly one token; it carries the entire
input as text, boost 1.0, and with `chars = true` the offsets
`(start_char, start_char + len(value))`. -/
theorem id_tokenizer_single_token (value : List Nat) (positions : Bool)
    (start_pos start_char : Nat) :
    (idCall value positions true start_pos start_char).length = 1 ∧
    ∀ t ∈ idCall value positions true start_pos start_char,
      t.text = value ∧ t.boost = 1 ∧
      t.startchar = some start_char ∧
      t.endchar = some (start_char + value.length) := by
  refine ⟨rfl, ?_⟩
  intro t ht
  simp only [idCall, List.mem_singleton] at ht
  subst ht
  exact ⟨rfl, rfl, rfl, rfl⟩

/-! ## Segment engine, modelled from the specification

The index/writer/reader core (whoosh/index.py, whoosh/writing.py,
whoosh/reading.py, whoosh/fields.py) is not among the sources; only its tests
are.  The definitions below are therefore modelled from the specification, as
each doc comment records. -/

/-- Modelled from the spec: a Segment (whoosh/index.py is missing) is an
immutable bundle of documents plus a deletion bitmap, "set of local document
ids marked deleted"; local ids are positions in `docs`, assigned in insertion
order.  Document payloads are reduced to the single key value the claims
need. -/
structure Segment where
  docs : List Nat
  deleted : List Nat
deriving DecidableEq

/-- Modelled from the spec: the live documents of a segment — "a document is
live iff its local id is not in its segment's deletion bitmap". -/
def segLiveIds (s : Segment) : List Nat :=
  (List.range s.docs.length).filter (fun i => !s.deleted.contains i)

/-- Modelled from the spec: `doc_count_all()` — all documents "including
deleted, not yet reclaimed". -/
def docCountAll (segs : List Segment) : Nat :=
  (segs.map (fun s => s.docs.length)).sum

/-- Modelled from the spec: `doc_count()` — live docs across all segments. -/
def docCount (segs : List Segment) : Nat :=
  (segs.map (fun s => (segLiveIds s).length)).sum

/-- Modelled from the spec: merging/optimize (whoosh/writing.py is missing) —
"Merging N segments produces one new segment whose postings are the
ascending-doc-id merge of the N inputs' live postings only — deleted
documents are physically dropped during merge"; `optimize` forces a full
merge into one segment, with a fresh (empty) deletion bitmap. -/
def optimize (segs : List Segment) : List Segment :=
  [{ docs := (segs.map (fun s => (segLiveIds s).map (fun i => s.docs.getD i 0))).flatten
     deleted := [] }]

/-- Modelled from the spec: the writer state machine
`OPEN → (ops)* → COMMITTED | CANCELLED` (whoosh/writing.py is missing). -/
inductive WriterState
  | opened
  | committed
  | cancelled
deriving DecidableEq

/-- Modelled from the spec: the error class of whoosh/writing.py's
`IndexingError`, distinguishing the "writer no longer usable" invalid-state
failure from the "no such document" failure of `delete_document`. -/
inductive IndexingError
  | writerNotUsable
  | noSuchDocument
deriving DecidableEq

/-- Modelled from the spec: a writer over an index — the committed segments,
the buffered (not yet flushed) documents, and the schema field list. -/
structure Writer where
  state : WriterState
  segments : List Segment
  buffered : List Nat
  schema : List Nat
deriving DecidableEq

/-- Modelled from the spec: the mutating writer operations named by the state
machine of §4.6 (document payloads and field names reduced to `Nat`). -/
inductive WriterOp
  | addDocument (key : Nat)
  | updateDocument (key : Nat)
  | deleteDocument (docId : Nat)
  | addReader
  | addField (name : Nat)
  | removeField (name : Nat)
deriving DecidableEq

/-- Modelled from the spec: mark every live document of a segment carrying
`key` as deleted (the scan behind `delete_by_term`). -/
def segDeleteByTerm (key : Nat) (s : Segment) : Segment :=
  { s with deleted :=
      s.deleted ++ ((List.range s.docs.length).filter
        (fun i => s.docs.getD i 0 == key)) }

/-- Modelled from the spec: translate an absolute document id into a mark in
the owning segment's deletion bitmap ("identified ... across the whole index
by (segment id, local id)"). -/
def markDeleted : List Segment → Nat → List Segment
  | [], _ => []
  | s :: rest, docId =>
      if docId < s.docs.length then { s with deleted := docId :: s.deleted } :: rest
      else s :: markDeleted rest (docId - s.docs.length)

/-- Modelled from the spec: `add_document` — buffers a new document, assigning
the next local id (the next position in `buffered`). -/
def addDocumentW (key : Nat) (w : Writer) : Writer :=
  { w with buffered := w.buffered ++ [key] }

/-- Modelled from the spec: the unique-field implicit delete — "every field
configured unique triggers an implicit delete of prior documents sharing that
field's value before the add is finalized", realizing `update_document` as
delete+add. -/
def updateDocumentW (key : Nat) (w : Writer) : Writer :=
  { w with segments := w.segments.map (segDeleteByTerm key)
           buffered := w.buffered ++ [key] }

/-- Modelled from the spec: `delete_document(doc_id)` — "marks a document
deleted by absolute id; raises an explicit no-such-document error if the id
was never assigned".  Assigned ids are the committed documents followed by
the buffered ones. -/
def deleteDocumentW (docId : Nat) (w : Writer) : Except IndexingError Writer :=
  if docId < docCountAll w.segments then
    Except.ok { w with segments := markDeleted w.segments docId }
  else if docId - docCountAll w.segments < w.buffered.length then
    Except.ok { w with buffered := w.buffered.eraseIdx (docId - docCountAll w.segments) }
  else
    Except.error IndexingError.noSuchDocument

/-- Modelled from the spec: dispatch of a mutating operation on a writer.
"Once COMMITTED or CANCELLED, every mutating operation fails with an explicit
writer-no-longer-usable error"; an `Except.error` result carries no new
writer, so the committed state is untouched by a failed call. -/
def applyOp (w : Writer) (op : WriterOp) : Except IndexingError Writer :=
  match w.state with
  | WriterState.opened =>
      match op with
      | WriterOp.addDocument key => Except.ok (addDocumentW key w)
      | WriterOp.updateDocument key => Except.ok (updateDocumentW key w)
      | WriterOp.deleteDocument docId => deleteDocumentW docId w
      | WriterOp.addReader => Except.ok w
      | WriterOp.addField name => Except.ok { w with schema := w.schema ++ [name] }
      | WriterOp.removeField name => Except.ok { w with schema := w.schema.erase name }
  | _ => Except.error IndexingError.writerNotUsable

/-- Modelled from the spec: `commit` flushes the buffered documents into one
new immutable segment appended to the committed list. -/
def commitW (w : Writer) : List Segment :=
  if w.buffered.isEmpty then w.segments
  else w.segments ++ [{ docs := w.buffered, deleted := [] }]

/-- Modelled from the spec: a fresh writer opened on the committed segments. -/
def newWriter (segs : List Segment) (schema : List Nat) : Writer :=
  { state := WriterState.opened, segments := segs, buffered := [], schema := schema }

/-- Modelled from the spec: one `with ix.writer() as w: w.update_document(...)`
iteration of the update scenario — open a writer, update, commit. -/
def updateCycle (key : Nat) (segs : List Segment) : List Segment :=
  commitW (updateDocumentW key (newWriter segs []))

/-- Modelled from the spec: the update scenario's index — add a document with
the unique key, then run ten update cycles, each inside its own commit. -/
def updateScenarioSegments : List Segment :=
  Nat.iterate (updateCycle 0) 10 (commitW (addDocumentW 0 (newWriter [] [])))

/-- Modelled from the spec: the generation list of the TOC (whoosh/index.py is
missing) — "ordered list of live segment identifiers + their deletion
bitmaps"; the last entry is the current generation. -/
structure Store where
  generations : List (List Segment)
deriving DecidableEq

/-- Modelled from the spec: "a reader opens a snapshot of the current
generation at open time" — the reader is the index of that generation. -/
def openReaderGen (st : Store) : Nat := st.generations.length - 1

/-- Modelled from the spec: every observation a reader makes goes through the
generation it captured at open time. -/
def readerSnapshot (st : Store) (r : Nat) : List Segment :=
  st.generations.getD r []

/-- Modelled from the spec: "commit is atomic replacement of the current
generation pointer ... they publish a new generation", never mutating the
generations already recorded. -/
def commitStore (st : Store) (newGen : List Segment) : Store :=
  { generations := st.generations ++ [newGen] }

/-- Claim C4: with a unique `key` field, adding key 0 and then updating
key 0 ten times, each in its own commit, leaves exactly one live document. -/
theorem update_unique_final_count : docCount updateScenarioSegments = 1 := by
  rfl

/-- Claim C5: a full merge physically drops the deleted documents — after
`optimize`, `doc_count_all` equals `doc_count`, and both equal the live count
before the merge. -/
theorem optimize_reclaims_deleted (segs : List Segment) :
    docCountAll (optimize segs) = docCount (optimize segs) ∧
    docCount (optimize segs) = docCount segs := by
  have hlive : ∀ ds : List Nat,
      (segLiveIds { docs := ds, deleted := [] }).length = ds.length := by
    intro ds
    simp [segLiveIds]
  constructor
  · simp [optimize, docCountAll, docCount, hlive]
  · simp [optimize, docCount, hlive, List.length_flatten, List.map_map,
      Function.comp_def]

/-- Claim C6: on a committed or cancelled writer every mutating operation
fails with the writer-no-longer-usable `IndexingError`; the error result
carries no successor writer, so the committed state is unchanged. -/
theorem writer_not_usable (w : Writer) (op : WriterOp)
    (h : w.state = WriterState.committed ∨ w.state = WriterState.cancelled) :
    applyOp w op = Except.error IndexingError.writerNotUsable := by
  obtain ⟨st, segs, buf, sch⟩ := w
  rcases h with h | h <;> (dsimp at h; subst h; rfl)

/-- Witness for C6: adding a document through a committed writer fails. -/
theorem writer_not_usable_witness :
    applyOp { state := WriterState.committed, segments := [], buffered := [],
              schema := [] } (WriterOp.addDocument 0)
      = Except.error IndexingError.writerNotUsable :=
  writer_not_usable _ _ (Or.inl rfl)

/-- Claim C7: on an open writer, `delete_document` with an absolute id that
was never assigned (at or past the committed plus buffered document count)
fails with the no-such-document `IndexingError`; the segment list is
universally quantified, covering single- and multi-segment indexes. -/
theorem delete_nonexistent_errors (w : Writer) (docId : Nat)
    (hopen : w.state = WriterState.opened)
    (hid : docCountAll w.segments + w.buffered.length ≤ docId) :
    applyOp w (WriterOp.deleteDocument docId)
      = Except.error IndexingError.noSuchDocument := by
  obtain ⟨st, segs, buf, sch⟩ := w
  dsimp at hopen hid
  subst hopen
  show deleteDocumentW docId _ = _
  unfold deleteDocumentW
  dsimp
  rw [if_neg (by omega), if_neg (by omega)]

/-- Witness for C7: deleting id 5 from a three-document, two-segment index
(the multi-segment shape of the scenario) fails. -/
theorem delete_nonexistent_errors_witness :
    applyOp (newWriter [{ docs := [1], deleted := [] },
                        { docs := [2, 3], deleted := [] }] [])
        (WriterOp.deleteDocument 5)
      = Except.error IndexingError.noSuchDocument :=
  delete_nonexistent_errors _ 5 rfl (by decide)

/-- Claim C8: a commit publishes a new generation and never mutates the
snapshot of a reader opened earlier — the reader's snapshot (hence every
observation through it: doc counts, term statistics, query results) is
identical before and after the commit. -/
theorem snapshot_isolation (st : Store) (g : List Segment) (r : Nat)
    (hr : r < st.generations.length) :
    readerSnapshot (commitStore st g) r = readerSnapshot st r ∧
    docCount (readerSnapshot (commitStore st g) r)
      = docCount (readerSnapshot st r) ∧
    docCountAll (readerSnapshot (commitStore st g) r)
      = docCountAll (readerSnapshot st r) := by
  have h : readerSnapshot (commitStore st g) r = readerSnapshot st r := by
    unfold readerSnapshot commitStore
    exact List.getD_append _ _ _ _ hr
  exact ⟨h, by rw [h], by rw [h]⟩

/-- Witness for C8: a reader over a one-generation store observes the same
snapshot after a commit appends a second generation. -/
theorem snapshot_isolation_witness :
    readerSnapshot (commitStore { generations := [[{ docs := [5], deleted := [] }]] }
        [{ docs := [5], deleted := [] }, { docs := [6], deleted := [] }]) 0
      = readerSnapshot { generations := [[{ docs := [5], deleted := [] }]] } 0 ∧
    docCount (readerSnapshot (commitStore { generations := [[{ docs := [5], deleted := [] }]] }
        [{ docs := [5], deleted := [] }, { docs := [6], deleted := [] }]) 0)
      = docCount (readerSnapshot { generations := [[{ docs := [5], deleted := [] }]] } 0) ∧
    docCountAll (readerSnapshot (commitStore { generations := [[{ docs := [5], deleted := [] }]] }
        [{ docs := [5], deleted := [] }, { docs := [6], deleted := [] }]) 0)
      = docCountAll (readerSnapshot { generations := [[{ docs := [5], deleted := [] }]] } 0) :=
  snapshot_isolation { generations := [[{ docs := [5], deleted := [] }]] }
    [{ docs := [5], deleted := [] }, { docs := [6], deleted := [] }] 0 (by decide)

/-! ## Numeric range scenario, modelled from the specification -/

/-- Modelled from the spec: the NUMERIC field's term encoding
(whoosh/fields.py is missing) — "numeric fields must byte-encode so that
lexicographic byte order equals numeric order"; a fixed-width big-endian
two-byte encoding, wide enough for the scenario's 0..399. -/
def numEncode (n : Nat) : List Nat := [n / 256, n % 256]

/-- Modelled from the spec: the strict lexicographic byte-string order by
which "terms within a field are totally ordered". -/
def lexLt : List Nat → List Nat → Bool
  | [], [] => false
  | [], _ :: _ => true
  | _ :: _, [] => false
  | x :: xs, y :: ys =>
      if x < y then true else if y < x then false else lexLt xs ys

/-- Non-strict companion of `lexLt` (total order on byte strings). -/
def lexLe (a b : List Nat) : Bool := !lexLt b a

/-- Modelled from the spec: evaluation of a term-range query node over an
index of (document id, term) pairs — the documents whose term lies within the
bounds, each bound inclusive or exclusive, in ascending document order. -/
def rangeQueryDocs (docs : List (Nat × List Nat)) (lo hi : List Nat)
    (incLo incHi : Bool) : List Nat :=
  (docs.filter (fun d =>
      (if incLo then lexLe lo d.2 else lexLt lo d.2) &&
      (if incHi then lexLe d.2 hi else lexLt d.2 hi))).map (fun d => d.1)

/-- Modelled from the spec: the range scenario's index — the integers 0..399,
one per document, in a numeric field. -/
def numericScenarioDocs : List (Nat × List Nat) :=
  (List.range 400).map (fun i => (i, numEncode i))

/-- Claim C3: over documents holding 0..399, the inclusive range [10 to 390]
returns exactly ids 10..390 ascending, and the exclusive range {10 to 390}
returns exactly ids 11..389 ascending. -/
theorem numeric_range_boundary :
    rangeQueryDocs numericScenarioDocs (numEncode 10) (numEncode 390) true true
      = List.range' 10 381 ∧
    rangeQueryDocs numericScenarioDocs (numEncode 10) (numEncode 390) false false
      = List.range' 11 379 := by
  constructor <;> rfl

end Whoosh
